import Mathlib

/-!
Verification of the CSS selector builder in `src/task/08-objects-tasks.js`.

The JavaScript class `Builder` accumulates selector parts.  Its mutable
fields are `idUsed`, `elementUsed`, `pseudoElementUsed` (booleans),
`order` (array of category ranks pushed so far, including ranks pushed by
calls that later threw the order error) and `result` (the rendered text).
Each part-appending method is modelled as a function
`Builder → Builder × Option SelErr`: the first component is the state of
the object after the call returns or throws (JavaScript mutations survive a
throw), the second is `none` on normal return and `some e` when the method
throws error `e`.

The constructor also allocates two `Error` objects once per builder and the
throw sites re-throw those stored objects.  Error identity is irrelevant to
most claims, so the core model only records which of the two errors is
thrown (`SelErr`); a second, heap-aware model `BuilderH` further down tags
each error object with its allocation number to settle the claims about
error-object freshness.
-/

/-- Which of the two per-builder error objects a method throws:
`duplicationError` models the `DuplicateSelectorPartError` ("Element, id and
pseudo-element should not occur more then one time...") and `orderError`
models the `SelectorOrderError` ("Selector parts should be arranged in the
following order..."). -/
inductive SelErr where
  | duplicationError
  | orderError
deriving DecidableEq, Repr

/-- State of a JavaScript `Builder` object: the five mutable fields set by
the constructor (lines 111-123 of the source). -/
structure Builder where
  idUsed : Bool
  elementUsed : Bool
  pseudoElementUsed : Bool
  order : List Nat
  result : String
deriving DecidableEq, Repr

/-- The constructor `new Builder()`: all flags false, empty order, empty
result. -/
def Builder.new : Builder :=
  { idUsed := false, elementUsed := false, pseudoElementUsed := false
    order := [], result := "" }

/-- Method `validateOrder` (source lines 196-204): copy `this.order`, sort it
ascending, and throw `this.orderError` iff some position of `this.order`
differs from the sorted copy.  Comparing the list with its sorted copy
position by position is equality of the two lists, since they have equal
length. -/
def Builder.validateOrder (b : Builder) : Option SelErr :=
  let sortedOrder := List.insertionSort (· ≤ ·) b.order
  if b.order = sortedOrder then none else some SelErr.orderError

/-- Method `element(value)` (source lines 125-136): duplicate check on
`elementUsed` first, then set the flag, push rank 0, validate the order
(mutations up to this point survive the throw), and only on success append
the value to `result`. -/
def Builder.element (b : Builder) (value : String) : Builder × Option SelErr :=
  if b.elementUsed then (b, some SelErr.duplicationError)
  else
    let b1 : Builder := { b with elementUsed := true, order := b.order ++ [0] }
    match b1.validateOrder with
    | some e => (b1, some e)
    | none => ({ b1 with result := b1.result ++ value }, none)

/-- Method `id(value)` (source lines 138-148): duplicate check on `idUsed`,
push rank 1, validate, then append `#value`. -/
def Builder.id (b : Builder) (value : String) : Builder × Option SelErr :=
  if b.idUsed then (b, some SelErr.duplicationError)
  else
    let b1 : Builder := { b with idUsed := true, order := b.order ++ [1] }
    match b1.validateOrder with
    | some e => (b1, some e)
    | none => ({ b1 with result := b1.result ++ ("#" ++ value) }, none)

/-- Method `class(value)` (source lines 150-156): no duplicate check, push
rank 2, validate, then append `.value`.  Named `cls` because `class` is a
Lean keyword. -/
def Builder.cls (b : Builder) (value : String) : Builder × Option SelErr :=
  let b1 : Builder := { b with order := b.order ++ [2] }
  match b1.validateOrder with
  | some e => (b1, some e)
  | none => ({ b1 with result := b1.result ++ ("." ++ value) }, none)

/-- Method `attr(value)` (source lines 158-164): no duplicate check, push
rank 3, validate, then append `[value]`. -/
def Builder.attr (b : Builder) (value : String) : Builder × Option SelErr :=
  let b1 : Builder := { b with order := b.order ++ [3] }
  match b1.validateOrder with
  | some e => (b1, some e)
  | none => ({ b1 with result := b1.result ++ ("[" ++ value ++ "]") }, none)

/-- Method `pseudoClass(value)` (source lines 166-172): no duplicate check,
push rank 4, validate, then append `:value`. -/
def Builder.pseudoClass (b : Builder) (value : String) : Builder × Option SelErr :=
  let b1 : Builder := { b with order := b.order ++ [4] }
  match b1.validateOrder with
  | some e => (b1, some e)
  | none => ({ b1 with result := b1.result ++ (":" ++ value) }, none)

/-- Method `pseudoElement(value)` (source lines 174-185): duplicate check on
`pseudoElementUsed`, push rank 5, validate, then append `::value`. -/
def Builder.pseudoElement (b : Builder) (value : String) : Builder × Option SelErr :=
  if b.pseudoElementUsed then (b, some SelErr.duplicationError)
  else
    let b1 : Builder := { b with pseudoElementUsed := true, order := b.order ++ [5] }
    match b1.validateOrder with
    | some e => (b1, some e)
    | none => ({ b1 with result := b1.result ++ ("::" ++ value) }, none)

/-- Method `stringify()` (source lines 187-189): returns `this.result` and
performs no assignment, so the post-state of the object equals the
pre-state.  Modelled in the same value-and-post-state convention as the
other methods. -/
def Builder.stringify (b : Builder) : String × Builder :=
  (b.result, b)

/-- Method `combine(selector1, combinator, selector2)` (source lines
191-194): appends `` `${selector1.result} ${combinator} ${selector2.result}` ``
to `this.result` and returns `this`; it never throws and does not validate
the combinator. -/
def Builder.combine (b : Builder) (selector1 : Builder) (combinator : String)
    (selector2 : Builder) : Builder :=
  { b with result :=
      b.result ++ selector1.result ++ " " ++ combinator ++ " " ++ selector2.result }

/-- Facade `cssSelectorBuilder.element` (source lines 208-210): a brand-new
builder, then `element(value)` on it. -/
def cssSelectorBuilder.element (value : String) : Builder × Option SelErr :=
  Builder.new.element value

/-- Facade `cssSelectorBuilder.id` (source lines 212-214). -/
def cssSelectorBuilder.id (value : String) : Builder × Option SelErr :=
  Builder.new.id value

/-- Facade `cssSelectorBuilder.class` (source lines 216-218). -/
def cssSelectorBuilder.cls (value : String) : Builder × Option SelErr :=
  Builder.new.cls value

/-- Facade `cssSelectorBuilder.attr` (source lines 220-222). -/
def cssSelectorBuilder.attr (value : String) : Builder × Option SelErr :=
  Builder.new.attr value

/-- Facade `cssSelectorBuilder.pseudoClass` (source lines 224-226). -/
def cssSelectorBuilder.pseudoClass (value : String) : Builder × Option SelErr :=
  Builder.new.pseudoClass value

/-- Facade `cssSelectorBuilder.pseudoElement` (source lines 228-230). -/
def cssSelectorBuilder.pseudoElement (value : String) : Builder × Option SelErr :=
  Builder.new.pseudoElement value

/-- Facade `cssSelectorBuilder.combine` (source lines 232-234): a brand-new
builder, then `combine` on it. -/
def cssSelectorBuilder.combine (selector1 : Builder) (combinator : String)
    (selector2 : Builder) : Builder :=
  Builder.new.combine selector1 combinator selector2

/-- Names of the six part-appending methods, used to quantify over them
uniformly.  `cls` stands for the source method `class`. -/
inductive OpK where
  | element
  | id
  | cls
  | attr
  | pseudoClass
  | pseudoElement
deriving DecidableEq, Repr

/-- Category rank each method pushes onto `order` (source lines 131, 143,
151, 159, 167, 180). -/
def rank : OpK → Nat
  | .element => 0
  | .id => 1
  | .cls => 2
  | .attr => 3
  | .pseudoClass => 4
  | .pseudoElement => 5

/-- Seen-flag consulted by the duplicate check of each method: `element`,
`id` and `pseudoElement` check their flag, the other three methods have no
duplicate check. -/
def seenFlag : OpK → Builder → Bool
  | .element, b => b.elementUsed
  | .id, b => b.idUsed
  | .pseudoElement, b => b.pseudoElementUsed
  | _, _ => false

/-- Flag assignment each method performs before validating: `element`, `id`
and `pseudoElement` set their flag, the other three set none. -/
def setSeen : OpK → Builder → Builder
  | .element, b => { b with elementUsed := true }
  | .id, b => { b with idUsed := true }
  | .pseudoElement, b => { b with pseudoElementUsed := true }
  | _, b => b

/-- Text fragment each method appends to `result` on success: the raw value
for `element`, `#value` for `id`, `.value` for `class`, `[value]` for
`attr`, `:value` for `pseudoClass`, `::value` for `pseudoElement`. -/
def fragment : OpK → String → String
  | .element, v => v
  | .id, v => "#" ++ v
  | .cls, v => "." ++ v
  | .attr, v => "[" ++ v ++ "]"
  | .pseudoClass, v => ":" ++ v
  | .pseudoElement, v => "::" ++ v

/-- Dispatch a method call by name. -/
def applyOp (k : OpK) (v : String) (b : Builder) : Builder × Option SelErr :=
  match k with
  | .element => b.element v
  | .id => b.id v
  | .cls => b.cls v
  | .attr => b.attr v
  | .pseudoClass => b.pseudoClass v
  | .pseudoElement => b.pseudoElement v

/-- State after a sequence of method calls, keeping the post-state of each
call whether it threw or not (a JavaScript caller that catches the errors
observes exactly this state). -/
def applyOps (b : Builder) (ops : List (OpK × String)) : Builder :=
  ops.foldl (fun b p => (applyOp p.1 p.2 b).1) b

/-- Run a sequence of method calls and record, for each call, whether it
threw and which error. -/
def runAppends : Builder → List (OpK × String) → Builder × List (Option SelErr)
  | b, [] => (b, [])
  | b, (k, v) :: rest =>
    let r := applyOp k v b
    let rest' := runAppends r.1 rest
    (rest'.1, r.2 :: rest'.2)

/-- Dispatch a facade entry point by name. -/
def facadeCall (k : OpK) (v : String) : Builder × Option SelErr :=
  match k with
  | .element => cssSelectorBuilder.element v
  | .id => cssSelectorBuilder.id v
  | .cls => cssSelectorBuilder.cls v
  | .attr => cssSelectorBuilder.attr v
  | .pseudoClass => cssSelectorBuilder.pseudoClass v
  | .pseudoElement => cssSelectorBuilder.pseudoElement v

/-- The `validateOrder` method returns normally iff `order` is already
non-decreasing. -/
theorem validateOrder_eq_none_iff (b : Builder) :
    b.validateOrder = none ↔ b.order.Sorted (· ≤ ·) := by
  unfold Builder.validateOrder
  constructor
  · intro h
    by_cases hs : b.order = List.insertionSort (· ≤ ·) b.order
    · rw [hs]
      exact List.sorted_insertionSort _ _
    · simp [hs] at h
  · intro hs
    rw [hs.insertionSort_eq]
    simp

/-- The `validateOrder` method throws exactly the order error when `order`
is not non-decreasing. -/
theorem validateOrder_eq_some_iff (b : Builder) :
    b.validateOrder = some SelErr.orderError ↔ ¬ b.order.Sorted (· ≤ ·) := by
  constructor
  · intro h hs
    have := (validateOrder_eq_none_iff b).mpr hs
    rw [this] at h
    exact Option.noConfusion h
  · intro hs
    unfold Builder.validateOrder
    have : ¬ b.order = List.insertionSort (· ≤ ·) b.order := by
      intro he
      exact hs (he ▸ List.sorted_insertionSort _ _)
    simp [this]

/-- Every method call has the same uniform shape: duplicate check on the
seen flag, then set the flag and push the rank, then validate, then on
success append the fragment. -/
theorem applyOp_eq (k : OpK) (v : String) (b : Builder) :
    applyOp k v b =
      if seenFlag k b then (b, some SelErr.duplicationError)
      else
        match (setSeen k { b with order := b.order ++ [rank k] }).validateOrder with
        | some e => (setSeen k { b with order := b.order ++ [rank k] }, some e)
        | none =>
          ({ setSeen k { b with order := b.order ++ [rank k] } with
              result := (setSeen k { b with order := b.order ++ [rank k] }).result
                ++ fragment k v }, none)
    := by
  cases k <;> rfl

/-- Flag assignment does not touch `order`. -/
theorem setSeen_order (k : OpK) (b : Builder) : (setSeen k b).order = b.order := by
  cases k <;> rfl

/-- Flag assignment does not touch `result`. -/
theorem setSeen_result (k : OpK) (b : Builder) : (setSeen k b).result = b.result := by
  cases k <;> rfl

/-- When the duplicate check fires, the method throws the duplication error
and the state is untouched. -/
theorem applyOp_of_seen {k : OpK} {b : Builder} (v : String)
    (h : seenFlag k b = true) :
    applyOp k v b = (b, some SelErr.duplicationError) := by
  rw [applyOp_eq, if_pos h]

/-- When the duplicate check passes and the pushed rank keeps `order`
non-decreasing, the method succeeds: flag set, rank pushed, fragment
appended. -/
theorem applyOp_of_sorted {k : OpK} {b : Builder} (v : String)
    (h : seenFlag k b = false)
    (hs : (b.order ++ [rank k]).Sorted (· ≤ ·)) :
    applyOp k v b =
      ({ setSeen k { b with order := b.order ++ [rank k] } with
          result := b.result ++ fragment k v }, none) := by
  have hv : (setSeen k { b with order := b.order ++ [rank k] }).validateOrder = none := by
    rw [validateOrder_eq_none_iff, setSeen_order]
    exact hs
  have hr : (setSeen k { b with order := b.order ++ [rank k] }).result = b.result :=
    setSeen_result ..
  rw [applyOp_eq, if_neg (by simp [h]), hv, hr]

/-- When the duplicate check passes but the pushed rank breaks monotonicity,
the method throws the order error; the flag assignment and the pushed rank
survive, while `result` is untouched. -/
theorem applyOp_of_unsorted {k : OpK} {b : Builder} (v : String)
    (h : seenFlag k b = false)
    (hs : ¬ (b.order ++ [rank k]).Sorted (· ≤ ·)) :
    applyOp k v b =
      (setSeen k { b with order := b.order ++ [rank k] }, some SelErr.orderError) := by
  have hv : (setSeen k { b with order := b.order ++ [rank k] }).validateOrder
      = some SelErr.orderError := by
    rw [validateOrder_eq_some_iff, setSeen_order]
    exact hs
  rw [applyOp_eq, if_neg (by simp [h]), hv]

/-- Effect of one call on the three seen flags: a call sets exactly its own
flag (if any) and never clears one. -/
theorem applyOp_flags (k : OpK) (v : String) (b : Builder) :
    (applyOp k v b).1.elementUsed = (b.elementUsed || (k == OpK.element))
    ∧ (applyOp k v b).1.idUsed = (b.idUsed || (k == OpK.id))
    ∧ (applyOp k v b).1.pseudoElementUsed = (b.pseudoElementUsed || (k == OpK.pseudoElement)) := by
  rw [applyOp_eq]
  by_cases h : seenFlag k b
  · rw [if_pos h]
    cases k <;> simp_all [seenFlag]
  · rw [if_neg (by simp_all)]
    cases hv : (setSeen k { b with order := b.order ++ [rank k] }).validateOrder <;>
      cases k <;> simp [setSeen]

/-- A whole sequence of calls never clears the `elementUsed` flag. -/
theorem applyOps_elementUsed (ops : List (OpK × String)) (b : Builder)
    (h : b.elementUsed = true) : (applyOps b ops).elementUsed = true := by
  induction ops generalizing b with
  | nil => exact h
  | cons p rest ih =>
    exact ih _ (by rw [(applyOp_flags p.1 p.2 b).1, h]; rfl)

/-- A whole sequence of calls never clears the `idUsed` flag. -/
theorem applyOps_idUsed (ops : List (OpK × String)) (b : Builder)
    (h : b.idUsed = true) : (applyOps b ops).idUsed = true := by
  induction ops generalizing b with
  | nil => exact h
  | cons p rest ih =>
    exact ih _ (by rw [(applyOp_flags p.1 p.2 b).2.1, h]; rfl)

/-- A whole sequence of calls never clears the `pseudoElementUsed` flag. -/
theorem applyOps_pseudoElementUsed (ops : List (OpK × String)) (b : Builder)
    (h : b.pseudoElementUsed = true) : (applyOps b ops).pseudoElementUsed = true := by
  induction ops generalizing b with
  | nil => exact h
  | cons p rest ih =>
    exact ih _ (by rw [(applyOp_flags p.1 p.2 b).2.2, h]; rfl)

/-- Joining a non-empty list of strings peels off the head. -/
theorem string_join_cons (a : String) (l : List String) :
    String.join (a :: l) = a ++ String.join l := by
  apply String.ext
  simp

/-- The `validateOrder` method can only ever throw the order error. -/
theorem validateOrder_some (b : Builder) (e : SelErr)
    (h : b.validateOrder = some e) : e = SelErr.orderError := by
  by_cases hs : b.order.Sorted (· ≤ ·)
  · rw [(validateOrder_eq_none_iff b).mpr hs] at h
    exact Option.noConfusion h
  · rw [(validateOrder_eq_some_iff b).mpr hs] at h
    exact (Option.some.inj h).symm

/-- A call whose duplicate check does not apply (because its category has no
seen flag, or the flag is still clear) never throws the duplication
error. -/
theorem applyOp_no_dup_of_unflagged (k : OpK) (v : String) (b : Builder)
    (h : seenFlag k b = false) :
    (applyOp k v b).2 ≠ some SelErr.duplicationError := by
  by_cases hs : (b.order ++ [rank k]).Sorted (· ≤ ·)
  · rw [applyOp_of_sorted v h hs]
    simp
  · rw [applyOp_of_unsorted v h hs]
    simp

/-- A call that throws, throws either the builder's duplication error or its
order error, and nothing else. -/
theorem applyOp_some (k : OpK) (v : String) (b : Builder) (e : SelErr)
    (h : (applyOp k v b).2 = some e) :
    e = SelErr.duplicationError ∨ e = SelErr.orderError := by
  cases e
  · exact Or.inl rfl
  · exact Or.inr rfl

/-- C1, counterexample: appending `class('a')` and then `element('div')`
makes the `element` call throw the order error, yet the builder state after
the failed call differs from the state before it (the rank 0 stays in
`order` and `elementUsed` stays set). -/
theorem css_c1_cex :
    ((Builder.new.cls "a").1.element "div").2 = some SelErr.orderError
    ∧ ((Builder.new.cls "a").1.element "div").1 ≠ (Builder.new.cls "a").1 := by
  decide

/-- C1, amended: a part-append that fails with the duplication error leaves
the builder state exactly unchanged, but a part-append that fails with the
order error is not atomic: `result` is unchanged while the rejected rank
remains appended to `order` and, for `element`/`id`/`pseudoElement`, the
seen flag set during the failed call remains set. -/
theorem css_c1_failed_append_state (b : Builder) (k : OpK) (v : String) (e : SelErr)
    (h : (applyOp k v b).2 = some e) :
    (e = SelErr.duplicationError → (applyOp k v b).1 = b)
    ∧ (e = SelErr.orderError →
        (applyOp k v b).1 = setSeen k { b with order := b.order ++ [rank k] }) := by
  by_cases hf : seenFlag k b
  · have hd := applyOp_of_seen v hf (b := b)
    rw [hd] at h
    refine ⟨fun _ => by rw [hd], fun he => ?_⟩
    exact absurd ((Option.some.inj h).trans he) (by decide)
  · by_cases hs : (b.order ++ [rank k]).Sorted (· ≤ ·)
    · rw [applyOp_of_sorted v (by simpa using hf) hs] at h
      exact Option.noConfusion h
    · have ho := applyOp_of_unsorted v (b := b) (by simpa using hf) hs
      rw [ho] at h
      refine ⟨fun he => ?_, fun _ => by rw [ho]⟩
      exact absurd ((Option.some.inj h).trans he) (by decide)

/-- C1, witness: the amended statement evaluated on the concrete failing
call `class('a')` then `element('div')`. -/
theorem css_c1_failed_append_state_w :
    (applyOp OpK.element "div" (Builder.new.cls "a").1).1 =
      setSeen OpK.element
        { (Builder.new.cls "a").1 with
            order := (Builder.new.cls "a").1.order ++ [rank OpK.element] } :=
  (css_c1_failed_append_state (Builder.new.cls "a").1 OpK.element "div"
    SelErr.orderError (by decide)).2 rfl

/-- Invariant for monotone runs: starting from a builder whose committed
ranks are sorted and all bounded by every upcoming rank, a run whose ranks
are non-decreasing never throws the order error. -/
theorem no_orderError_of_monotone_run (ops : List (OpK × String)) (b : Builder)
    (hb : b.order.Sorted (· ≤ ·))
    (hle : ∀ r ∈ b.order, ∀ p ∈ ops, r ≤ rank p.1)
    (hch : (ops.map fun p => rank p.1).Sorted (· ≤ ·)) :
    ∀ e ∈ (runAppends b ops).2, e ≠ some SelErr.orderError := by
  induction ops generalizing b with
  | nil =>
    intro e he
    simp [runAppends] at he
  | cons p rest ih =>
    obtain ⟨k, v⟩ := p
    intro e he
    simp only [runAppends, List.mem_cons] at he
    have hsorted : ((b.order ++ [rank k]).Sorted (· ≤ ·)) := by
      rw [List.Sorted, List.pairwise_append]
      refine ⟨hb, List.pairwise_singleton .., ?_⟩
      intro a ha c hc
      rw [List.mem_singleton] at hc
      subst hc
      exact hle a ha (k, v) (List.mem_cons_self ..)
    have hch' : (rest.map fun p => rank p.1).Sorted (· ≤ ·) := by
      rw [List.map_cons, List.Sorted, List.pairwise_cons] at hch
      exact hch.2
    have hhead : ∀ p' ∈ rest, rank k ≤ rank p'.1 := by
      rw [List.map_cons, List.Sorted, List.pairwise_cons] at hch
      intro p' hp'
      exact hch.1 _ (List.mem_map_of_mem _ hp')
    by_cases hf : seenFlag k b
    · rw [applyOp_of_seen v hf] at he
      rcases he with he | he
      · rw [he]
        intro hcontra
        exact SelErr.noConfusion (Option.some.inj hcontra)
      · exact ih b hb (fun r hr p' hp' => hle r hr p' (List.mem_cons_of_mem _ hp')) hch' e he
    · rw [applyOp_of_sorted v (by simpa using hf) hsorted] at he
      rcases he with he | he
      · rw [he]
        exact Option.noConfusion
      · refine ih _ ?_ ?_ hch' e he
        · rw [setSeen_order]
          exact hsorted
        · rw [setSeen_order]
          intro r hr p' hp'
          rw [List.mem_append, List.mem_singleton] at hr
          rcases hr with hr | hr
          · exact hle r hr p' (List.mem_cons_of_mem _ hp')
          · subst hr
            exact hhead p' hp'

/-- C2, counterexample: in the run `element('a')`, `class('b')`,
`element('c')`, the third append's rank 0 is strictly less than the earlier
committed rank 2, yet that append throws the duplication error, not
`SelectorOrderError`. -/
theorem css_c2_cex :
    (2 : Nat) ∈ (((Builder.new.element "a").1.cls "b").1).order
    ∧ rank OpK.element < 2
    ∧ ((((Builder.new.element "a").1.cls "b").1).element "c").2
        ≠ some SelErr.orderError
    ∧ ((((Builder.new.element "a").1.cls "b").1).element "c").2
        = some SelErr.duplicationError := by
  decide

/-- C2, amended: a run whose category ranks are non-decreasing never throws
the order error; and an append whose rank is strictly less than some
already-recorded rank always throws — `SelectorOrderError` when the
append's own duplicate check does not fire, and `DuplicateSelectorPartError`
when it does. -/
theorem css_c2_order_error_characterization (ops : List (OpK × String))
    (b : Builder) (k : OpK) (v : String) (r : Nat) :
    ((ops.map fun p => rank p.1).Sorted (· ≤ ·) →
      ∀ e ∈ (runAppends Builder.new ops).2, e ≠ some SelErr.orderError)
    ∧ (r ∈ b.order → rank k < r →
      (applyOp k v b).2 =
        some (if seenFlag k b then SelErr.duplicationError else SelErr.orderError)) := by
  constructor
  · intro hch
    exact no_orderError_of_monotone_run ops Builder.new (by simp [Builder.new])
      (by simp [Builder.new]) hch
  · intro hr hlt
    by_cases hf : seenFlag k b
    · rw [applyOp_of_seen v hf, if_pos hf]
    · have hs : ¬ (b.order ++ [rank k]).Sorted (· ≤ ·) := by
        rw [List.Sorted, List.pairwise_append]
        intro hcontra
        exact absurd (hcontra.2.2 r hr (rank k) (List.mem_singleton_self _))
          (Nat.not_le.mpr hlt)
      rw [applyOp_of_unsorted v (by simpa using hf) hs, if_neg hf]

/-- C2, witness: the amended statement on concrete inputs — the monotone run
`element('a')`, `class('b')` throws no order error, and `element('div')`
after `id('x')` throws the order error. -/
theorem css_c2_order_error_characterization_w :
    (∀ e ∈ (runAppends Builder.new [(OpK.element, "a"), (OpK.cls, "b")]).2,
      e ≠ some SelErr.orderError)
    ∧ (applyOp OpK.element "div" (Builder.new.id "x").1).2 =
        some (if seenFlag OpK.element (Builder.new.id "x").1 then
          SelErr.duplicationError else SelErr.orderError) :=
  ⟨(css_c2_order_error_characterization [(OpK.element, "a"), (OpK.cls, "b")]
      Builder.new OpK.element "x" 0).1 (by decide),
   (css_c2_order_error_characterization [] (Builder.new.id "x").1
      OpK.element "div" 1).2 (by decide) (by decide)⟩

/-- A call to `element` on a builder whose `elementUsed` flag is set throws
the duplication error. -/
theorem element_snd_of_used (b : Builder) (w : String)
    (hb : b.elementUsed = true) :
    (b.element w).2 = some SelErr.duplicationError := by
  unfold Builder.element
  rw [if_pos hb]

/-- A call to `id` on a builder whose `idUsed` flag is set throws the
duplication error. -/
theorem id_snd_of_used (b : Builder) (w : String)
    (hb : b.idUsed = true) :
    (b.id w).2 = some SelErr.duplicationError := by
  unfold Builder.id
  rw [if_pos hb]

/-- A call to `pseudoElement` on a builder whose `pseudoElementUsed` flag is
set throws the duplication error. -/
theorem pseudoElement_snd_of_used (b : Builder) (w : String)
    (hb : b.pseudoElementUsed = true) :
    (b.pseudoElement w).2 = some SelErr.duplicationError := by
  unfold Builder.pseudoElement
  rw [if_pos hb]

/-- C3: on any single builder, once `element` has been invoked, any later
`element` call — with any other calls in between — throws the duplication
error; likewise for `id` and for `pseudoElement`; and `class`, `attr`,
`pseudoClass` never throw the duplication error. -/
theorem css_c3_duplicate_rules (b : Builder) (v w : String)
    (ops : List (OpK × String)) :
    ((applyOps (b.element v).1 ops).element w).2 = some SelErr.duplicationError
    ∧ ((applyOps (b.id v).1 ops).id w).2 = some SelErr.duplicationError
    ∧ ((applyOps (b.pseudoElement v).1 ops).pseudoElement w).2
        = some SelErr.duplicationError
    ∧ (b.cls v).2 ≠ some SelErr.duplicationError
    ∧ (b.attr v).2 ≠ some SelErr.duplicationError
    ∧ (b.pseudoClass v).2 ≠ some SelErr.duplicationError := by
  refine ⟨?_, ?_, ?_, ?_, ?_, ?_⟩
  · refine element_snd_of_used _ w (applyOps_elementUsed ops _ ?_)
    have := (applyOp_flags OpK.element v b).1
    simpa [applyOp] using this
  · refine id_snd_of_used _ w (applyOps_idUsed ops _ ?_)
    have := (applyOp_flags OpK.id v b).2.1
    simpa [applyOp] using this
  · refine pseudoElement_snd_of_used _ w (applyOps_pseudoElementUsed ops _ ?_)
    have := (applyOp_flags OpK.pseudoElement v b).2.2
    simpa [applyOp] using this
  · exact applyOp_no_dup_of_unflagged OpK.cls v b rfl
  · exact applyOp_no_dup_of_unflagged OpK.attr v b rfl
  · exact applyOp_no_dup_of_unflagged OpK.pseudoClass v b rfl

/-- C4: when a call to `element`, `id` or `pseudoElement` faces both a
duplicate violation (its seen flag is set) and an order violation (pushing
its rank would make `validateOrder` throw), the duplicate check runs first
and the duplication error is the one thrown. -/
theorem css_c4_duplicate_precedence (b : Builder) (v : String) :
    (b.elementUsed = true →
      Builder.validateOrder { b with order := b.order ++ [rank OpK.element] }
        = some SelErr.orderError →
      (b.element v).2 = some SelErr.duplicationError)
    ∧ (b.idUsed = true →
      Builder.validateOrder { b with order := b.order ++ [rank OpK.id] }
        = some SelErr.orderError →
      (b.id v).2 = some SelErr.duplicationError)
    ∧ (b.pseudoElementUsed = true →
      Builder.validateOrder { b with order := b.order ++ [rank OpK.pseudoElement] }
        = some SelErr.orderError →
      (b.pseudoElement v).2 = some SelErr.duplicationError) :=
  ⟨fun h _ => element_snd_of_used b v h,
   fun h _ => id_snd_of_used b v h,
   fun h _ => pseudoElement_snd_of_used b v h⟩

/-- C4, witness: after `element('x')` then `class('y')`, a second
`element('z')` faces both violations and throws the duplication error. -/
theorem css_c4_duplicate_precedence_w :
    ((((Builder.new.element "x").1.cls "y").1).element "z").2
      = some SelErr.duplicationError :=
  (css_c4_duplicate_precedence (((Builder.new.element "x").1.cls "y").1) "z").1
    (by decide) (by decide)

/-- C5: combining two already-built selectors with any combinator text
renders the left text, a single space, the combinator verbatim, a single
space, and the right text; in particular the documented `div#main +
table#data` example. -/
theorem css_c5_combine (a b : Builder) (c : String) :
    (cssSelectorBuilder.combine a c b).stringify.1
      = a.stringify.1 ++ " " ++ c ++ " " ++ b.stringify.1
    ∧ (cssSelectorBuilder.combine ((cssSelectorBuilder.element "div").1.id "main").1
        "+" ((cssSelectorBuilder.element "table").1.id "data").1).stringify.1
      = "div#main + table#data" := by
  constructor
  · show "" ++ (a.result ++ " " ++ c ++ " " ++ b.result)
      = a.result ++ " " ++ c ++ " " ++ b.result
    exact String.empty_append _
  · decide

/-- A call that returns normally appends exactly its fragment to `result`. -/
theorem applyOp_result_of_none (k : OpK) (v : String) (b : Builder)
    (h : (applyOp k v b).2 = none) :
    (applyOp k v b).1.result = b.result ++ fragment k v := by
  by_cases hf : seenFlag k b
  · rw [applyOp_of_seen v hf] at h
    exact Option.noConfusion h
  · by_cases hs : (b.order ++ [rank k]).Sorted (· ≤ ·)
    · rw [applyOp_of_sorted v (by simpa using hf) hs]
    · rw [applyOp_of_unsorted v (by simpa using hf) hs] at h
      exact Option.noConfusion h

/-- The `result` of a builder after a run with no thrown error is the
initial `result` followed by the fragments in call order. -/
theorem result_of_success_run (ops : List (OpK × String)) (b : Builder)
    (h : ∀ e ∈ (runAppends b ops).2, e = none) :
    (runAppends b ops).1.result
      = b.result ++ String.join (ops.map fun p => fragment p.1 p.2) := by
  induction ops generalizing b with
  | nil =>
    show b.result = b.result ++ String.join []
    rw [show String.join [] = "" from rfl, String.append_empty]
  | cons p rest ih =>
    obtain ⟨k, v⟩ := p
    have hhead : (applyOp k v b).2 = none := by
      refine h _ ?_
      simp [runAppends]
    have htail : ∀ e ∈ (runAppends (applyOp k v b).1 rest).2, e = none := by
      intro e he
      refine h e ?_
      simp only [runAppends, List.mem_cons]
      exact Or.inr he
    show (runAppends (applyOp k v b).1 rest).1.result = _
    rw [ih _ htail, applyOp_result_of_none k v b hhead, List.map_cons,
      string_join_cons, String.append_assoc]

/-- C6: the rendered text of a successfully built selector is the
left-to-right concatenation of the per-part fragments in append order
(element unprefixed, `#` for id, `.` for class, `[...]` for attr, `:` for
pseudo-class, `::` for pseudo-element), as on the two documented
examples. -/
theorem css_c6_stringify_concat (ops : List (OpK × String)) :
    ((∀ e ∈ (runAppends Builder.new ops).2, e = none) →
      (runAppends Builder.new ops).1.stringify.1
        = String.join (ops.map fun p => fragment p.1 p.2))
    ∧ (((cssSelectorBuilder.id "main").1.cls "container").1.cls "editable").1.stringify.1
        = "#main.container.editable"
    ∧ (((cssSelectorBuilder.element "a").1.attr "href$=\".png\"").1.pseudoClass "focus").1.stringify.1
        = "a[href$=\".png\"]:focus" := by
  refine ⟨fun h => ?_, by decide, by decide⟩
  show (runAppends Builder.new ops).1.result = _
  rw [result_of_success_run ops Builder.new h]
  exact String.empty_append _

/-- C6, witness: the general concatenation statement evaluated on the
concrete successful run `id('main')`, `class('container')`. -/
theorem css_c6_stringify_concat_w :
    (runAppends Builder.new [(OpK.id, "main"), (OpK.cls, "container")]).1.stringify.1
      = String.join ([(OpK.id, "main"), (OpK.cls, "container")].map
          fun p => fragment p.1 p.2) :=
  (css_c6_stringify_concat [(OpK.id, "main"), (OpK.cls, "container")]).1 (by decide)

/-- Repeated `stringify()` calls, each one reading the post-state of the
previous call. -/
def stringifyIter : Nat → Builder → String × Builder
  | 0, b => b.stringify
  | n + 1, b => stringifyIter n b.stringify.2

/-- C7: `stringify` is idempotent and side-effect free — any number of
repeated calls returns the same text as the first call and leaves every
component of the builder state unchanged. -/
theorem css_c7_stringify_idempotent (b : Builder) (n : Nat) :
    stringifyIter n b = (b.stringify.1, b) ∧ b.stringify.2 = b := by
  refine ⟨?_, rfl⟩
  induction n with
  | zero => rfl
  | succ n ih => exact ih

/-- A builder whose recorded rank sequence is out of order can never append
again: every call throws, and the rank sequence stays out of order. -/
theorem applyOp_poisoned (b : Builder) (hb : ¬ b.order.Sorted (· ≤ ·))
    (k : OpK) (v : String) :
    (applyOp k v b).2.isSome = true
    ∧ ¬ (applyOp k v b).1.order.Sorted (· ≤ ·) := by
  by_cases hf : seenFlag k b
  · rw [applyOp_of_seen v hf]
    exact ⟨rfl, hb⟩
  · have hs : ¬ (b.order ++ [rank k]).Sorted (· ≤ ·) := by
      intro hcontra
      rw [List.Sorted, List.pairwise_append] at hcontra
      exact hb hcontra.1
    rw [applyOp_of_unsorted v (by simpa using hf) hs]
    refine ⟨rfl, ?_⟩
    rw [setSeen_order]
    exact hs

/-- From a builder with an out-of-order rank sequence, every call of every
run throws. -/
theorem run_all_fail (ops : List (OpK × String)) (b : Builder)
    (hb : ¬ b.order.Sorted (· ≤ ·)) :
    ∀ e ∈ (runAppends b ops).2, e.isSome = true := by
  induction ops generalizing b with
  | nil =>
    intro e he
    simp [runAppends] at he
  | cons p rest ih =>
    intro e he
    simp only [runAppends, List.mem_cons] at he
    rcases he with he | he
    · rw [he]
      exact (applyOp_poisoned b hb p.1 p.2).1
    · exact ih _ (applyOp_poisoned b hb p.1 p.2).2 e he

/-- An order failure leaves the rank sequence out of order. -/
theorem applyOp_orderError_unsorted (b : Builder) (k : OpK) (v : String)
    (h : (applyOp k v b).2 = some SelErr.orderError) :
    ¬ (applyOp k v b).1.order.Sorted (· ≤ ·) := by
  by_cases hf : seenFlag k b
  · rw [applyOp_of_seen v hf] at h
    exact absurd (Option.some.inj h) (by decide)
  · by_cases hs : (b.order ++ [rank k]).Sorted (· ≤ ·)
    · rw [applyOp_of_sorted v (by simpa using hf) hs] at h
      exact Option.noConfusion h
    · rw [applyOp_of_unsorted v (by simpa using hf) hs]
      rw [setSeen_order]
      exact hs

/-- C10: once a part-append on a builder has failed with the order error,
every subsequent part-append call of any category on that builder also
throws — the builder is permanently closed to further appends. -/
theorem css_c10_poisoned_after_order_error (b : Builder) (k : OpK) (v : String)
    (h : (applyOp k v b).2 = some SelErr.orderError)
    (ops : List (OpK × String)) :
    ∀ e ∈ (runAppends (applyOp k v b).1 ops).2, e.isSome = true :=
  run_all_fail ops _ (applyOp_orderError_unsorted b k v h)

/-- C10, witness: after `class('a')` then the failing `element('div')`, the
subsequent calls `id('x')` and `attr('y')` both throw. -/
theorem css_c10_poisoned_after_order_error_w :
    ((runAppends (applyOp OpK.element "div" (Builder.new.cls "a").1).1
      [(OpK.id, "x"), (OpK.attr, "y")]).2.all Option.isSome) = true :=
  List.all_eq_true.mpr
    (css_c10_poisoned_after_order_error (Builder.new.cls "a").1 OpK.element "div"
      (by decide) [(OpK.id, "x"), (OpK.attr, "y")])

/-- A JavaScript `Error` object: `alloc` is the heap allocation number that
distinguishes two objects built by two evaluations of `new Error(...)`, and
`message` the message passed to the constructor. -/
structure JsError where
  alloc : Nat
  message : String
deriving DecidableEq, Repr

/-- Message of the duplication error built in the constructor (source lines
117-119). -/
def duplicationMessage : String :=
  "Element, id and pseudo-element should not occur more then one time inside the selector\" if element, id or pseudo-element occurs twice or more times"

/-- Message of the order error built in the constructor (source lines
120-122). -/
def orderMessage : String :=
  "Selector parts should be arranged in the following order: element, id, class, attribute, pseudo-class, pseudo-element"

/-- Heap-aware variant of the builder state, additionally recording the two
error objects the constructor allocates once per builder and the throw
sites re-throw.  Used only for the claims about error-object identity. -/
structure BuilderH where
  idUsed : Bool
  elementUsed : Bool
  pseudoElementUsed : Bool
  order : List Nat
  result : String
  duplicationError : JsError
  orderError : JsError
deriving DecidableEq, Repr

/-- The constructor `new Builder()` in the heap-aware model: `alloc` is the
allocation number handed to the first of the two consecutive
`new Error(...)` evaluations. -/
def BuilderH.new (alloc : Nat) : BuilderH :=
  { idUsed := false, elementUsed := false, pseudoElementUsed := false
    order := [], result := ""
    duplicationError := { alloc := alloc, message := duplicationMessage }
    orderError := { alloc := alloc + 1, message := orderMessage } }

/-- Method `validateOrder` in the heap-aware model: it throws the builder's
stored `orderError` object. -/
def BuilderH.validateOrder (b : BuilderH) : Option JsError :=
  let sortedOrder := List.insertionSort (· ≤ ·) b.order
  if b.order = sortedOrder then none else some b.orderError

/-- Method `element` in the heap-aware model: it throws the builder's stored
`duplicationError` object on a duplicate. -/
def BuilderH.element (b : BuilderH) (value : String) : BuilderH × Option JsError :=
  if b.elementUsed then (b, some b.duplicationError)
  else
    let b1 : BuilderH := { b with elementUsed := true, order := b.order ++ [0] }
    match b1.validateOrder with
    | some e => (b1, some e)
    | none => ({ b1 with result := b1.result ++ value }, none)

/-- Method `id` in the heap-aware model. -/
def BuilderH.id (b : BuilderH) (value : String) : BuilderH × Option JsError :=
  if b.idUsed then (b, some b.duplicationError)
  else
    let b1 : BuilderH := { b with idUsed := true, order := b.order ++ [1] }
    match b1.validateOrder with
    | some e => (b1, some e)
    | none => ({ b1 with result := b1.result ++ ("#" ++ value) }, none)

/-- Method `class` in the heap-aware model. -/
def BuilderH.cls (b : BuilderH) (value : String) : BuilderH × Option JsError :=
  let b1 : BuilderH := { b with order := b.order ++ [2] }
  match b1.validateOrder with
  | some e => (b1, some e)
  | none => ({ b1 with result := b1.result ++ ("." ++ value) }, none)

/-- Method `attr` in the heap-aware model. -/
def BuilderH.attr (b : BuilderH) (value : String) : BuilderH × Option JsError :=
  let b1 : BuilderH := { b with order := b.order ++ [3] }
  match b1.validateOrder with
  | some e => (b1, some e)
  | none => ({ b1 with result := b1.result ++ ("[" ++ value ++ "]") }, none)

/-- Method `pseudoClass` in the heap-aware model. -/
def BuilderH.pseudoClass (b : BuilderH) (value : String) : BuilderH × Option JsError :=
  let b1 : BuilderH := { b with order := b.order ++ [4] }
  match b1.validateOrder with
  | some e => (b1, some e)
  | none => ({ b1 with result := b1.result ++ (":" ++ value) }, none)

/-- Method `pseudoElement` in the heap-aware model. -/
def BuilderH.pseudoElement (b : BuilderH) (value : String) : BuilderH × Option JsError :=
  if b.pseudoElementUsed then (b, some b.duplicationError)
  else
    let b1 : BuilderH := { b with pseudoElementUsed := true, order := b.order ++ [5] }
    match b1.validateOrder with
    | some e => (b1, some e)
    | none => ({ b1 with result := b1.result ++ ("::" ++ value) }, none)

/-- Dispatch a heap-aware method call by name. -/
def applyOpH (k : OpK) (v : String) (b : BuilderH) : BuilderH × Option JsError :=
  match k with
  | .element => b.element v
  | .id => b.id v
  | .cls => b.cls v
  | .attr => b.attr v
  | .pseudoClass => b.pseudoClass v
  | .pseudoElement => b.pseudoElement v

/-- C8, counterexample: on one builder, the failing second and third
`element` calls are two distinct failures, yet both throw the very same
pre-built error object (same allocation, same message) — no fresh error
value is constructed per failure. -/
theorem css_c8_cex :
    ((((BuilderH.new 0).element "a").1.element "b").2
        = (((((BuilderH.new 0).element "a").1.element "b").1).element "c").2)
    ∧ ((((BuilderH.new 0).element "a").1.element "b").2
        = some { alloc := 0, message := duplicationMessage }) := by
  decide

/-- C8, amended: every failure throws one of the two error objects the
builder's constructor pre-built (the duplication object or the order
object), never a freshly constructed one, and no call ever replaces those
two stored objects; failures of the same kind on one builder therefore
share one error object, while builders from disjoint allocations hold
distinct objects. -/
theorem css_c8_errors_prebuilt (b : BuilderH) (k : OpK) (v : String) (e : JsError)
    (h : (applyOpH k v b).2 = some e) :
    (e = b.duplicationError ∨ e = b.orderError)
    ∧ (applyOpH k v b).1.duplicationError = b.duplicationError
    ∧ (applyOpH k v b).1.orderError = b.orderError := by
  cases k <;>
    simp only [applyOpH, BuilderH.element, BuilderH.id, BuilderH.cls,
      BuilderH.attr, BuilderH.pseudoClass, BuilderH.pseudoElement,
      BuilderH.validateOrder] at h ⊢ <;>
    (repeat' split at h) <;>
    simp_all

/-- C8, witness: the amended statement on the concrete failing second
`element` call. -/
theorem css_c8_errors_prebuilt_w :
    (({ alloc := 0, message := duplicationMessage } : JsError)
        = (((BuilderH.new 0).element "a").1).duplicationError
      ∨ ({ alloc := 0, message := duplicationMessage } : JsError)
        = (((BuilderH.new 0).element "a").1).orderError)
    ∧ (applyOpH OpK.element "b" (((BuilderH.new 0).element "a").1)).1.duplicationError
        = (((BuilderH.new 0).element "a").1).duplicationError
    ∧ (applyOpH OpK.element "b" (((BuilderH.new 0).element "a").1)).1.orderError
        = (((BuilderH.new 0).element "a").1).orderError :=
  css_c8_errors_prebuilt (((BuilderH.new 0).element "a").1) OpK.element "b"
    { alloc := 0, message := duplicationMessage } (by decide)

/-- One externally observable action against the module: starting a new
chain through a facade entry point (which constructs a brand-new builder),
calling a part-appending method on the builder at a given position of the
world, or combining two existing builders through the facade (which also
constructs a brand-new builder and mutates neither operand). -/
inductive WAction where
  | newChain : OpK → String → WAction
  | chainCall : Nat → OpK → String → WAction
  | newCombine : Nat → String → Nat → WAction
deriving DecidableEq, Repr

/-- Effect of one action on the world, the list of builder objects created
so far (a new builder is appended at the end). -/
def stepWorld (w : List Builder) : WAction → List Builder
  | .newChain k v => w ++ [(facadeCall k v).1]
  | .chainCall i k v =>
    match w[i]? with
    | some b => w.set i (applyOp k v b).1
    | none => w
  | .newCombine i c j =>
    match w[i]?, w[j]? with
    | some a, some b => w ++ [cssSelectorBuilder.combine a c b]
    | _, _ => w

/-- Run a list of actions against a world. -/
def runWorld : List Builder → List WAction → List Builder
  | w, [] => w
  | w, a :: t => runWorld (stepWorld w a) t

/-- The calls a list of actions makes on the builder at position `n`. -/
def targetOps (n : Nat) : List WAction → List (OpK × String)
  | [] => []
  | WAction.chainCall i k v :: t =>
    if i = n then (k, v) :: targetOps n t else targetOps n t
  | _ :: t => targetOps n t

/-- A position that holds a builder is inside the world. -/
theorem lt_length_of_get (w : List Builder) (n : Nat) (b : Builder)
    (h : w[n]? = some b) : n < w.length := by
  by_contra hc
  rw [List.getElem?_eq_none (Nat.le_of_not_lt hc)] at h
  exact Option.noConfusion h

/-- A `chainCall` action on position `n` replaces the builder there by the
post-state of the call. -/
theorem stepWorld_get_call (w : List Builder) (n : Nat) (k : OpK) (v : String)
    (b : Builder) (h : w[n]? = some b) :
    (stepWorld w (WAction.chainCall n k v))[n]? = some (applyOp k v b).1 := by
  show (match w[n]? with
    | some c => w.set n (applyOp k v c).1
    | none => w)[n]? = _
  rw [h]
  rw [List.getElem?_set_self (by simpa using lt_length_of_get w n b h)]

/-- Any action other than a `chainCall` on position `n` leaves the builder
at position `n` untouched: new chains and combines only append brand-new
builders, and calls on other builders only replace those. -/
theorem stepWorld_get_other (w : List Builder) (a : WAction) (n : Nat)
    (b : Builder) (h : w[n]? = some b)
    (ha : ∀ k v, a ≠ WAction.chainCall n k v) :
    (stepWorld w a)[n]? = some b := by
  have hn : n < w.length := lt_length_of_get w n b h
  cases a with
  | newChain k v =>
    show (w ++ [(facadeCall k v).1])[n]? = some b
    rw [List.getElem?_append_left hn]
    exact h
  | chainCall i k v =>
    have hi : i ≠ n := by
      intro hc
      exact ha k v (by rw [hc])
    show (match w[i]? with
      | some c => w.set i (applyOp k v c).1
      | none => w)[n]? = _
    cases hw : w[i]? with
    | none => exact h
    | some c =>
      rw [List.getElem?_set_ne hi]
      exact h
  | newCombine i c j =>
    show (match w[i]?, w[j]? with
      | some x, some y => w ++ [cssSelectorBuilder.combine x c y]
      | _, _ => w)[n]? = some b
    cases hi : w[i]? with
    | none => exact h
    | some bi =>
      cases hj : w[j]? with
      | none => exact h
      | some bj =>
        show (w ++ [cssSelectorBuilder.combine bi c bj])[n]? = some b
        rw [List.getElem?_append_left hn]
        exact h

/-- The builder at position `n` after any action list is fully determined by
the calls targeting position `n`. -/
theorem runWorld_get (t : List WAction) (w : List Builder) (n : Nat) (b : Builder)
    (h : w[n]? = some b) :
    (runWorld w t)[n]? = some (applyOps b (targetOps n t)) := by
  induction t generalizing w b with
  | nil =>
    show w[n]? = some (applyOps b [])
    exact h
  | cons a t ih =>
    show (runWorld (stepWorld w a) t)[n]? = _
    cases a with
    | newChain k v =>
      exact ih _ _ (stepWorld_get_other w _ n b h (fun _ _ => WAction.noConfusion))
    | chainCall i k v =>
      by_cases hi : i = n
      · subst hi
        rw [ih _ _ (stepWorld_get_call w i k v b h)]
        show _ = some (applyOps b (targetOps i (WAction.chainCall i k v :: t)))
        simp [targetOps, applyOps]
      · rw [ih _ _ (stepWorld_get_other w _ n b h
          (fun _ _ hc => hi (WAction.chainCall.inj hc).1))]
        simp [targetOps, hi]
    | newCombine i c j =>
      exact ih _ _ (stepWorld_get_other w _ n b h (fun _ _ => WAction.noConfusion))

/-- C9: every facade entry point constructs a brand-new builder, and the
builder created by a facade call — after exactly the chain calls made on it
— is fully determined by those calls alone, whatever other facade chains
were executed before (`w`) or interleaved afterwards (the non-targeting
actions of `t`). -/
theorem css_c9_facade_no_shared_state (w : List Builder) (k : OpK) (v : String)
    (t : List WAction) :
    (runWorld w (WAction.newChain k v :: t))[w.length]?
      = some (applyOps (facadeCall k v).1 (targetOps w.length t))
    ∧ facadeCall k v = applyOp k v Builder.new := by
  constructor
  · show (runWorld (w ++ [(facadeCall k v).1]) t)[w.length]? = _
    refine runWorld_get t _ w.length _ ?_
    exact List.getElem?_concat_length _ _
  · cases k <;> rfl

example :
    ((((cssSelectorBuilder.id "main").1.cls "container").1.cls "editable").1).stringify.1
      = "#main.container.editable" := by decide

example :
    ((((cssSelectorBuilder.element "a").1.attr "href$=\".png\"").1.pseudoClass "focus").1).stringify.1
      = "a[href$=\".png\"]:focus" := by decide
